import Mathlib

/-!
# Verification of the resume-screening workflow orchestration core

Shallow embedding of the orchestration core of the agentic resume-screening
repository:

* `src/state/state.py` — the `AgentState` TypedDict (shared state container,
  with per-field merge semantics given by `Annotated[..., operator.add]`
  reducers on three fields and overwrite semantics elsewhere);
* `src/agents/graph/graph_enhanced.py` — the router `should_reanalyze` and
  the graph built by `create_enhanced_screening_graph`.

Python dictionaries are modelled with explicit key-absence: a state field of
declared type `T | None` becomes `Option (Option T)` — the outer `Option`
records whether the key is present at all (LangGraph state may lack keys a
stage has not yet written), the inner one distinguishes Python `None` from a
real value.  The three accumulator fields (`candidates`,
`conversation_history`, `errors`) always have a list value (their reducer
supplies `[]`), so they are plain lists.  Generic `dict` payloads that the
core never inspects are modelled as association lists of strings; the one
dict the router reads, `quality_check`, is projected to the single key the
code accesses (`needs_reanalysis`).  Fallible Python evaluation (attribute
errors on `None`, unordered comparisons with `None`) is modelled with
`Except String`.
-/

namespace Screening

/-- Generic opaque Python dict payload the core never inspects
(job requirements, tool plans, score records, ...). -/
abbrev Dict := List (String × String)

/-- Projection of the `quality_check` dict to the one key the router reads:
`quality_check.get("needs_reanalysis", False)`.  `none` models a dict in
which the key is absent. -/
structure QualityCheck where
  needs_reanalysis : Option Bool
  deriving DecidableEq, Repr

/-- The shared state container, from `AgentState` in `src/state/state.py`.
Field order and names follow the source.  `Option (Option T)` encodes
key-presence (outer) and Python `None` (inner); the three
`Annotated[list, operator.add]` accumulator fields are plain lists. -/
structure AgentState where
  -- === INPUTS ===
  job_description : Option String
  resumes : Option (List String)
  resume_filenames : Option (Option (List String))
  -- === PROCESSED JOB INFO ===
  job_requirements : Option (Option Dict)
  -- === PROCESSED CANDIDATES ===  (accumulator: operator.add)
  candidates : List Dict
  -- === SCORING RESULTS ===
  skill_scores : Option (Option (List Dict))
  experience_scores : Option (Option (List Dict))
  education_scores : Option (Option (List Dict))
  -- === FINAL OUTPUTS ===
  candidate_scores : Option (Option (List Dict))
  ranked_candidates : Option (Option (List Dict))
  report : Option (Option String)
  interview_questions : Option (Option (List (String × List String)))
  -- === INTERACTIVE Q&A ===
  user_question : Option (Option String)
  agent_response : Option (Option String)
  -- conversation_history (accumulator: operator.add); messages as strings
  conversation_history : List String
  -- === METADATA ===
  current_step : Option (Option String)
  -- errors (accumulator: operator.add)
  errors : List String
  -- NEW fields for enhanced workflow
  tool_plan : Option (Option Dict)
  company_verifications : Option (Option Dict)
  github_analyses : Option (Option Dict)
  skill_taxonomy_data : Option (Option Dict)
  quality_check : Option (Option QualityCheck)
  reanalysis_count : Option (Option Int)
  bias_analysis : Option (Option Dict)
  salary_estimates : Option (Option Dict)
  ats_scores : Option (Option Dict)
  deriving DecidableEq, Repr

/-- A state with every key absent and every accumulator empty. -/
def emptyState : AgentState where
  job_description := none
  resumes := none
  resume_filenames := none
  job_requirements := none
  candidates := []
  skill_scores := none
  experience_scores := none
  education_scores := none
  candidate_scores := none
  ranked_candidates := none
  report := none
  interview_questions := none
  user_question := none
  agent_response := none
  conversation_history := []
  current_step := none
  errors := []
  tool_plan := none
  company_verifications := none
  github_analyses := none
  skill_taxonomy_data := none
  quality_check := none
  reanalysis_count := none
  bias_analysis := none
  salary_estimates := none
  ats_scores := none

/-- The router outcome strings: `should_reanalyze` is declared
`-> Literal["reanalyze", "continue"]` and returns these string literals. -/
def reanalyzeOutcome : String := "reanalyze"

/-- The proceed outcome string literal of the router. -/
def continueOutcome : String := "continue"

/-- The router `should_reanalyze` from
`src/agents/graph/graph_enhanced.py` (lines 41-63), with Python fault
behaviour made explicit:

* `state.get("quality_check", {})` yields the default empty dict only when
  the key is absent; a key holding `None` yields `None`, and the following
  `quality_check.get("needs_reanalysis", False)` then raises
  `AttributeError`.
* `state.get("reanalysis_count", 0)` likewise yields `None` when the key
  holds `None`; `needs_reanalysis and reanalysis_count < 2` then raises
  `TypeError` when `needs_reanalysis` is truthy (when it is falsy, `and`
  short-circuits and no comparison happens).
* the `else` branch evaluates `needs_reanalysis and reanalysis_count >= 2`
  only to decide a print; on every path reaching it the comparison is with
  an `int`, and the branch returns `"continue"`. -/
def should_reanalyze (state : AgentState) : Except String String :=
  -- quality_check = state.get("quality_check", {})
  let quality_check : Option QualityCheck :=
    match state.quality_check with
    | none => some { needs_reanalysis := none }
    | some v => v
  match quality_check with
  | none => .error "AttributeError: NoneType object has no attribute get"
  | some qc =>
    -- needs_reanalysis = quality_check.get("needs_reanalysis", False)
    let needs_reanalysis : Bool := qc.needs_reanalysis.getD false
    -- reanalysis_count = state.get("reanalysis_count", 0)
    let reanalysis_count : Option Int :=
      match state.reanalysis_count with
      | none => some 0
      | some v => v
    -- if needs_reanalysis and reanalysis_count < 2:
    if needs_reanalysis then
      match reanalysis_count with
      | none => .error "TypeError: comparison of NoneType and int"
      | some c =>
        if c < 2 then .ok reanalyzeOutcome
        else .ok continueOutcome
    else .ok continueOutcome

/-- A partial state update returned by a stage: a dict holding only the
keys the stage writes.  `none` means the key is absent from the update. -/
structure AgentStateUpdate where
  job_description : Option String := none
  resumes : Option (List String) := none
  resume_filenames : Option (Option (List String)) := none
  job_requirements : Option (Option Dict) := none
  candidates : Option (List Dict) := none
  skill_scores : Option (Option (List Dict)) := none
  experience_scores : Option (Option (List Dict)) := none
  education_scores : Option (Option (List Dict)) := none
  candidate_scores : Option (Option (List Dict)) := none
  ranked_candidates : Option (Option (List Dict)) := none
  report : Option (Option String) := none
  interview_questions : Option (Option (List (String × List String))) := none
  user_question : Option (Option String) := none
  agent_response : Option (Option String) := none
  conversation_history : Option (List String) := none
  current_step : Option (Option String) := none
  errors : Option (List String) := none
  tool_plan : Option (Option Dict) := none
  company_verifications : Option (Option Dict) := none
  github_analyses : Option (Option Dict) := none
  skill_taxonomy_data : Option (Option Dict) := none
  quality_check : Option (Option QualityCheck) := none
  reanalysis_count : Option (Option Int) := none
  bias_analysis : Option (Option Dict) := none
  salary_estimates : Option (Option Dict) := none
  ats_scores : Option (Option Dict) := none
  deriving DecidableEq, Repr

/-- The update that writes no key at all. -/
def emptyUpdate : AgentStateUpdate := {}

/-- Overwrite merge for one field: a key present in the update replaces the
current value, an absent key keeps it. -/
def owMerge {α : Type} (cur upd : Option α) : Option α :=
  match upd with
  | some v => some v
  | none => cur

/-- Merging a stage's partial update into the state, following the
per-field reducers declared in `AgentState`: the three fields annotated
`Annotated[list, operator.add]` (`candidates`, `conversation_history`,
`errors`) concatenate the update onto the existing list; every other field
is overwritten by a present key. -/
def mergeState (s : AgentState) (u : AgentStateUpdate) : AgentState where
  job_description := owMerge s.job_description u.job_description
  resumes := owMerge s.resumes u.resumes
  resume_filenames := owMerge s.resume_filenames u.resume_filenames
  job_requirements := owMerge s.job_requirements u.job_requirements
  candidates := s.candidates ++ u.candidates.getD []
  skill_scores := owMerge s.skill_scores u.skill_scores
  experience_scores := owMerge s.experience_scores u.experience_scores
  education_scores := owMerge s.education_scores u.education_scores
  candidate_scores := owMerge s.candidate_scores u.candidate_scores
  ranked_candidates := owMerge s.ranked_candidates u.ranked_candidates
  report := owMerge s.report u.report
  interview_questions := owMerge s.interview_questions u.interview_questions
  user_question := owMerge s.user_question u.user_question
  agent_response := owMerge s.agent_response u.agent_response
  conversation_history :=
    s.conversation_history ++ u.conversation_history.getD []
  current_step := owMerge s.current_step u.current_step
  errors := s.errors ++ u.errors.getD []
  tool_plan := owMerge s.tool_plan u.tool_plan
  company_verifications :=
    owMerge s.company_verifications u.company_verifications
  github_analyses := owMerge s.github_analyses u.github_analyses
  skill_taxonomy_data := owMerge s.skill_taxonomy_data u.skill_taxonomy_data
  quality_check := owMerge s.quality_check u.quality_check
  reanalysis_count := owMerge s.reanalysis_count u.reanalysis_count
  bias_analysis := owMerge s.bias_analysis u.bias_analysis
  salary_estimates := owMerge s.salary_estimates u.salary_estimates
  ats_scores := owMerge s.ats_scores u.ats_scores

/-- The field names of `AgentState`, in declaration order. -/
inductive StateField
  | job_description | resumes | resume_filenames | job_requirements
  | candidates | skill_scores | experience_scores | education_scores
  | candidate_scores | ranked_candidates | report | interview_questions
  | user_question | agent_response | conversation_history | current_step
  | errors | tool_plan | company_verifications | github_analyses
  | skill_taxonomy_data | quality_check | reanalysis_count | bias_analysis
  | salary_estimates | ats_scores
  deriving DecidableEq, Fintype, Repr

/-- The two merge classes a field can be declared with. -/
inductive MergeClass
  | overwrite
  | accumulator
  deriving DecidableEq, Repr

/-- Merge class of each field, read off the `AgentState` declaration:
exactly the fields annotated with the `operator.add` reducer are
accumulators. -/
def mergeClass : StateField → MergeClass
  | .candidates => .accumulator
  | .conversation_history => .accumulator
  | .errors => .accumulator
  | _ => .overwrite

/-- Whether an update dict contains the given key. -/
def writesField (u : AgentStateUpdate) : StateField → Bool
  | .job_description => u.job_description.isSome
  | .resumes => u.resumes.isSome
  | .resume_filenames => u.resume_filenames.isSome
  | .job_requirements => u.job_requirements.isSome
  | .candidates => u.candidates.isSome
  | .skill_scores => u.skill_scores.isSome
  | .experience_scores => u.experience_scores.isSome
  | .education_scores => u.education_scores.isSome
  | .candidate_scores => u.candidate_scores.isSome
  | .ranked_candidates => u.ranked_candidates.isSome
  | .report => u.report.isSome
  | .interview_questions => u.interview_questions.isSome
  | .user_question => u.user_question.isSome
  | .agent_response => u.agent_response.isSome
  | .conversation_history => u.conversation_history.isSome
  | .current_step => u.current_step.isSome
  | .errors => u.errors.isSome
  | .tool_plan => u.tool_plan.isSome
  | .company_verifications => u.company_verifications.isSome
  | .github_analyses => u.github_analyses.isSome
  | .skill_taxonomy_data => u.skill_taxonomy_data.isSome
  | .quality_check => u.quality_check.isSome
  | .reanalysis_count => u.reanalysis_count.isSome
  | .bias_analysis => u.bias_analysis.isSome
  | .salary_estimates => u.salary_estimates.isSome
  | .ats_scores => u.ats_scores.isSome

/-- The fields written by the stages of the retry-reachable span
(`experience_analyzer_enhanced` through `quality_checker`), as the spec
enumerates them; the node implementations live outside the embedded
sources. -/
def spanWrittenFields : List StateField :=
  [.experience_scores, .education_scores, .candidate_scores,
   .ranked_candidates, .quality_check]

/-- The 14 stage nodes registered by `workflow.add_node` in
`create_enhanced_screening_graph` (`src/agents/graph/graph_enhanced.py`,
lines 125-163).  The graph key of the `resume_parse` constructor is the
resume-parsing stage registered right after the job analyzer. -/
inductive Node
  | job_analyzer
  | resume_parse
  | tool_coordinator
  | candidate_enricher
  | skill_matcher_enhanced
  | experience_analyzer_enhanced
  | education_verifier
  | scorer
  | quality_checker
  | bias_detector
  | salary_estimator
  | ats_scorer
  | report_generator
  | question_generator
  deriving DecidableEq, Fintype, Repr

/-- The stage-to-stage edges wired by `workflow.add_edge` and
`workflow.add_conditional_edges` (lines 176-207): the linear chain plus the
two conditional outcomes of `quality_checker`.  The final
`add_edge("question_generator", END)` leads to the terminal marker, not to
a stage, and is kept separate. -/
def graphEdges : List (Node × Node) :=
  [ (.job_analyzer, .resume_parse),
    (.resume_parse, .tool_coordinator),
    (.tool_coordinator, .candidate_enricher),
    (.candidate_enricher, .skill_matcher_enhanced),
    (.skill_matcher_enhanced, .experience_analyzer_enhanced),
    (.experience_analyzer_enhanced, .education_verifier),
    (.education_verifier, .scorer),
    (.scorer, .quality_checker),
    (.quality_checker, .experience_analyzer_enhanced),  -- "reanalyze"
    (.quality_checker, .bias_detector),                 -- "continue"
    (.bias_detector, .salary_estimator),
    (.salary_estimator, .ats_scorer),
    (.ats_scorer, .report_generator),
    (.report_generator, .question_generator) ]

/-- The edge selected by the `"reanalyze"` outcome of the conditional edge
map (`"reanalyze"` to `experience_analyzer_enhanced`, `"continue"` to
`bias_detector`). -/
def retryEdge : Node × Node :=
  (.quality_checker, .experience_analyzer_enhanced)

/-- Successor of the `"reanalyze"` / `"continue"` outcomes in the
conditional edge map attached to `quality_checker`. -/
def conditionalTarget (outcome : String) : Option Node :=
  if outcome = reanalyzeOutcome then some .experience_analyzer_enhanced
  else if outcome = continueOutcome then some .bias_detector
  else none

/-- Position of each stage in the linear forward sequence of the workflow
(the order of the `add_edge` chain from the entry point to `END`). -/
def linearIndex : Node → Nat
  | .job_analyzer => 0
  | .resume_parse => 1
  | .tool_coordinator => 2
  | .candidate_enricher => 3
  | .skill_matcher_enhanced => 4
  | .experience_analyzer_enhanced => 5
  | .education_verifier => 6
  | .scorer => 7
  | .quality_checker => 8
  | .bias_detector => 9
  | .salary_estimator => 10
  | .ats_scorer => 11
  | .report_generator => 12
  | .question_generator => 13

/-- Edge relation of the built graph. -/
def EdgeRel (a b : Node) : Prop := (a, b) ∈ graphEdges

instance : DecidableRel EdgeRel := fun a b =>
  inferInstanceAs (Decidable ((a, b) ∈ graphEdges))

/-- Reachability along graph edges. -/
def Reaches (a b : Node) : Prop := Relation.ReflTransGen EdgeRel a b

/-- The quality flag as the router reads it on non-faulting states: absent
key or absent `needs_reanalysis` entry count as `False`. -/
def needsFlag (state : AgentState) : Bool :=
  match state.quality_check with
  | some (some qc) => qc.needs_reanalysis.getD false
  | _ => false

/-- The retry counter as the router reads it on non-faulting states:
an absent key counts as `0`. -/
def countVal (state : AgentState) : Int :=
  match state.reanalysis_count with
  | some (some c) => c
  | _ => 0

/-- An engine configuration: executing a stage with the current state,
arrived at the `END` marker, or aborted by an uncaught exception raised
while routing. -/
inductive Config
  | running (n : Node) (s : AgentState)
  | finished (s : AgentState)
  | failed (e : String) (s : AgentState)
  deriving DecidableEq, Repr

/-- The state carried by a configuration. -/
def configState : Config → AgentState
  | .running _ s => s
  | .finished s => s
  | .failed _ s => s

/-- The stage a configuration is about to execute, if any. -/
def configNode : Config → Option Node
  | .running n _ => some n
  | _ => none

/-- Whether a configuration has reached the terminal marker. -/
def isFinished : Config → Bool
  | .finished _ => true
  | _ => false

/-- One step of the compiled-graph execution engine: run the current
stage's update function, merge its partial update into state, then follow
the stage's outgoing edge — the single static `add_edge` successor for
every stage except `quality_checker`, whose successor is chosen by looking
the router's outcome string up in the conditional-edge map (an outcome
missing from the map would be a `KeyError`).  `upd` gives each stage's
update (the node implementations live outside the embedded sources and are
kept abstract); `dec` is the decision-point update applied when the retry
outcome is emitted (`incrementOnRetry` below models the spec's counter
increment; `id` is the behaviour of the embedded sources alone, where the
router returns only the outcome string). -/
def step (dec : AgentState → AgentState)
    (upd : Node → AgentState → AgentStateUpdate) : Config → Config
  | .running n s =>
    let s' := mergeState s (upd n s)
    match n with
    | .job_analyzer => .running .resume_parse s'
    | .resume_parse => .running .tool_coordinator s'
    | .tool_coordinator => .running .candidate_enricher s'
    | .candidate_enricher => .running .skill_matcher_enhanced s'
    | .skill_matcher_enhanced => .running .experience_analyzer_enhanced s'
    | .experience_analyzer_enhanced => .running .education_verifier s'
    | .education_verifier => .running .scorer s'
    | .scorer => .running .quality_checker s'
    | .quality_checker =>
      match should_reanalyze s' with
      | .error e => .failed e s'
      | .ok o =>
        if o = reanalyzeOutcome then
          .running .experience_analyzer_enhanced (dec s')
        else if o = continueOutcome then .running .bias_detector s'
        else .failed "KeyError: outcome not in conditional edge map" s'
    | .bias_detector => .running .salary_estimator s'
    | .salary_estimator => .running .ats_scorer s'
    | .ats_scorer => .running .report_generator s'
    | .report_generator => .running .question_generator s'
    | .question_generator => .finished s'
  | .finished s => .finished s
  | .failed e s => .failed e s

/-- Modelled from the spec: the decision point "emits retry and increments
the counter" (spec section 4.3), with overwrite semantics on an integer.
The stage code performing the increment (`src/agents/nodes`) is not among
the embedded sources; only its caller, the graph builder, is. -/
def incrementOnRetry (s : AgentState) : AgentState :=
  { s with reanalysis_count := some (some (countVal s + 1)) }

/-- The stages visited during the first `k` steps from `c`. -/
def visitedNodes (dec : AgentState → AgentState)
    (upd : Node → AgentState → AgentStateUpdate) (c : Config) (k : Nat) :
    List (Option Node) :=
  (List.range k).map (fun i => configNode ((step dec upd)^[i] c))

/-- Number of retry transitions in a visit trace: adjacent visits going
from the decision stage back to the retry target. -/
def retryTransitions (l : List (Option Node)) : Nat :=
  (l.zip l.tail).count
    (some Node.quality_checker, some Node.experience_analyzer_enhanced)

end Screening

namespace Screening

/-- A concrete state on which the router faults: `quality_check` key present
holding Python `None` (`dict | None` permits it). -/
def stateQcNone : AgentState :=
  { emptyState with quality_check := some none, job_description := some "jd" }

/-- A concrete state on which the router faults: quality flag set,
`reanalysis_count` key present holding Python `None`. -/
def stateCountNone : AgentState :=
  { emptyState with
      quality_check := some (some { needs_reanalysis := some true }),
      reanalysis_count := some none }

/-- A concrete update writing only span fields, for the C9 witness. -/
def spanOnlyUpdate : AgentStateUpdate :=
  { experience_scores := some (some [[("years", "5")]]),
    ranked_candidates := some (some []),
    quality_check := some (some { needs_reanalysis := some false }) }

/-- A concrete state from which the router emits retry: flag set, counter
at integer 0. -/
def retryReadyState : AgentState :=
  { emptyState with
      quality_check := some (some { needs_reanalysis := some true }),
      reanalysis_count := some (some 0) }

/-- A concrete update family under which the quality checker always
reports that reanalysis is needed and no stage writes any other key. -/
def alwaysNeedsUpdate : Node → AgentState → AgentStateUpdate :=
  fun n _ =>
    if n = .quality_checker then
      { quality_check := some (some { needs_reanalysis := some true }) }
    else emptyUpdate

end Screening

namespace Screening

/-! ## Shared lemmas -/

/-- Every non-retry edge moves strictly forward in the linear sequence. -/
lemma nonretry_edge_forward :
    ∀ x y : Node, EdgeRel x y → (x, y) ≠ retryEdge →
      linearIndex x < linearIndex y := by
  decide

/-- Along a chain of non-retry edges, every later node sits strictly after
the start in the linear sequence. -/
lemma nonretry_chain_forward (a : Node) (l : List Node)
    (h : List.Chain (fun x y => EdgeRel x y ∧ (x, y) ≠ retryEdge) a l) :
    ∀ b ∈ l, linearIndex a < linearIndex b := by
  induction l generalizing a with
  | nil => intro b hb; exact absurd hb (List.not_mem_nil b)
  | cons x rest ih =>
    rcases List.chain_cons.mp h with ⟨⟨hxy, hne⟩, hrest⟩
    intro b hb
    rcases List.mem_cons.mp hb with rfl | hb
    · exact nonretry_edge_forward a b hxy hne
    · exact (nonretry_edge_forward a x hxy hne).trans (ih x hrest b hb)

/-- Merging an update that does not write `reanalysis_count` keeps it. -/
lemma merge_rc (s : AgentState) (u : AgentStateUpdate)
    (h : u.reanalysis_count = none) :
    (mergeState s u).reanalysis_count = s.reanalysis_count := by
  simp [mergeState, owMerge, h]

/-- Merging an update that writes a `quality_check` dict installs it. -/
lemma merge_qc (s : AgentState) (u : AgentStateUpdate) (d : QualityCheck)
    (h : u.quality_check = some (some d)) :
    (mergeState s u).quality_check = some (some d) := by
  simp [mergeState, owMerge, h]

/-- `countVal` of a state whose counter key is absent. -/
lemma countVal_of_none (s : AgentState) (h : s.reanalysis_count = none) :
    countVal s = 0 := by
  simp [countVal, h]

/-- `countVal` of a state whose counter key holds an integer. -/
lemma countVal_of_int (s : AgentState) (c : Int)
    (h : s.reanalysis_count = some (some c)) : countVal s = c := by
  simp [countVal, h]

/-- Router evaluation: flag set and counter below the ceiling (absent or
an integer under 2) emits the retry outcome. -/
lemma router_retry_of (s : AgentState) (d : QualityCheck)
    (hq : s.quality_check = some (some d))
    (hn : d.needs_reanalysis = some true)
    (hc : s.reanalysis_count = none ∨
      ∃ c : Int, s.reanalysis_count = some (some c) ∧ c < 2) :
    should_reanalyze s = .ok reanalyzeOutcome := by
  unfold should_reanalyze
  rcases hc with h | ⟨c, h, hlt⟩
  · simp [hq, h, hn]
  · simp [hq, h, hn, hlt]

/-- Router evaluation: an unset flag emits the proceed outcome. -/
lemma router_continue_of_flag_false (s : AgentState) (d : QualityCheck)
    (hq : s.quality_check = some (some d))
    (hn : d.needs_reanalysis.getD false = false) :
    should_reanalyze s = .ok continueOutcome := by
  unfold should_reanalyze
  simp [hq, hn]

/-- Router evaluation: an integer counter at or above the ceiling emits
the proceed outcome, whatever the flag. -/
lemma router_continue_of_ceiling (s : AgentState) (d : QualityCheck)
    (c : Int) (hq : s.quality_check = some (some d))
    (hc : s.reanalysis_count = some (some c)) (h2 : ¬ c < 2) :
    should_reanalyze s = .ok continueOutcome := by
  unfold should_reanalyze
  cases hn : d.needs_reanalysis.getD false <;> simp [hq, hc, hn, h2]

/-- Advancing one iterate of a step function through a known
configuration. -/
lemma iterate_step_eq {α : Type} (f : α → α) (k : Nat) (x y z : α)
    (hk : f^[k] x = y) (hs : f y = z) : f^[k + 1] x = z := by
  rw [Function.iterate_succ_apply', hk, hs]

/-- Advancing past a stage with a static successor preserves the counter
when the stage does not write it. -/
lemma lin_advance {dec : AgentState → AgentState}
    {upd : Node → AgentState → AgentStateUpdate} {c0 : Config} {k : Nat}
    {n m : Node} {s : AgentState} {v : Option (Option Int)}
    (hk : (step dec upd)^[k] c0 = .running n s)
    (hrc : s.reanalysis_count = v)
    (hu : (upd n s).reanalysis_count = none)
    (hs : step dec upd (.running n s) = .running m (mergeState s (upd n s))) :
    ∃ t, (step dec upd)^[k + 1] c0 = .running m t ∧
      t.reanalysis_count = v :=
  ⟨_, iterate_step_eq _ k _ _ _ hk hs, by rw [merge_rc _ _ hu]; exact hrc⟩

/-- A configuration at the terminal marker is absorbing. -/
lemma iterate_finished (dec : AgentState → AgentState)
    (upd : Node → AgentState → AgentStateUpdate) (m : Nat) (s : AgentState) :
    (step dec upd)^[m] (.finished s) = .finished s := by
  induction m with
  | zero => rfl
  | succ k ih => rw [Function.iterate_succ_apply', ih]; rfl

/-- The step taken at the decision stage when the router emits retry. -/
lemma step_qc_retry (dec : AgentState → AgentState)
    (upd : Node → AgentState → AgentStateUpdate) (s : AgentState)
    (hr : should_reanalyze (mergeState s (upd .quality_checker s)) =
      .ok reanalyzeOutcome) :
    step dec upd (.running .quality_checker s) =
      .running .experience_analyzer_enhanced
        (dec (mergeState s (upd .quality_checker s))) := by
  simp [step, hr]

/-- The step taken at the decision stage when the router emits proceed. -/
lemma step_qc_continue (dec : AgentState → AgentState)
    (upd : Node → AgentState → AgentStateUpdate) (s : AgentState)
    (hr : should_reanalyze (mergeState s (upd .quality_checker s)) =
      .ok continueOutcome) :
    step dec upd (.running .quality_checker s) =
      .running .bias_detector (mergeState s (upd .quality_checker s)) := by
  simp [step, hr, reanalyzeOutcome, continueOutcome]

/-- A function iterate with a cycle of length `p` at `y` only ever visits
the first `p` iterates of `y`. -/
lemma iterate_cycle {α : Type} (f : α → α) (y : α) (p : Nat) (hp : 0 < p)
    (h : f^[p] y = y) : ∀ m, f^[m] y = f^[m % p] y := by
  intro m
  induction m using Nat.strong_induction_on with
  | _ m ih =>
    by_cases hm : m < p
    · rw [Nat.mod_eq_of_lt hm]
    · push_neg at hm
      have hsub : m - p < m := Nat.sub_lt (lt_of_lt_of_le hp hm) hp
      have h1 : f^[m] y = f^[m - p] (f^[p] y) := by
        rw [← Function.iterate_add_apply]
        congr 1
        omega
      rw [h1, h, ih (m - p) hsub, Nat.mod_eq_sub_mod hm]

/-- Running the linear prefix from the entry stage to the decision stage:
eight steps, counter key still absent. -/
lemma prefix_to_qc (dec : AgentState → AgentState)
    (upd : Node → AgentState → AgentStateUpdate) (s0 : AgentState)
    (hctrl : ∀ n s, (upd n s).reanalysis_count = none)
    (hs0 : s0.reanalysis_count = none) :
    ∃ t, (step dec upd)^[8] (.running .job_analyzer s0) =
        .running .quality_checker t ∧ t.reanalysis_count = none := by
  have h0 : (step dec upd)^[0] (Config.running .job_analyzer s0) =
      .running .job_analyzer s0 := rfl
  obtain ⟨s1, h1, hr1⟩ := lin_advance h0 hs0 (hctrl _ _) rfl
  obtain ⟨s2, h2, hr2⟩ := lin_advance h1 hr1 (hctrl _ _) rfl
  obtain ⟨s3, h3, hr3⟩ := lin_advance h2 hr2 (hctrl _ _) rfl
  obtain ⟨s4, h4, hr4⟩ := lin_advance h3 hr3 (hctrl _ _) rfl
  obtain ⟨s5, h5, hr5⟩ := lin_advance h4 hr4 (hctrl _ _) rfl
  obtain ⟨s6, h6, hr6⟩ := lin_advance h5 hr5 (hctrl _ _) rfl
  obtain ⟨s7, h7, hr7⟩ := lin_advance h6 hr6 (hctrl _ _) rfl
  obtain ⟨s8, h8, hr8⟩ := lin_advance h7 hr7 (hctrl _ _) rfl
  exact ⟨s8, h8, hr8⟩

/-- Running the retry-reachable span from its target back to the decision
stage: three steps, counter preserved. -/
lemma span_to_qc (dec : AgentState → AgentState)
    (upd : Node → AgentState → AgentStateUpdate) (s : AgentState)
    (v : Option (Option Int))
    (hctrl : ∀ n s, (upd n s).reanalysis_count = none)
    (hrc : s.reanalysis_count = v) :
    ∃ t, (step dec upd)^[3] (.running .experience_analyzer_enhanced s) =
        .running .quality_checker t ∧ t.reanalysis_count = v := by
  have h0 : (step dec upd)^[0]
      (Config.running .experience_analyzer_enhanced s) =
      .running .experience_analyzer_enhanced s := rfl
  obtain ⟨s1, h1, hr1⟩ := lin_advance h0 hrc (hctrl _ _) rfl
  obtain ⟨s2, h2, hr2⟩ := lin_advance h1 hr1 (hctrl _ _) rfl
  obtain ⟨s3, h3, hr3⟩ := lin_advance h2 hr2 (hctrl _ _) rfl
  exact ⟨s3, h3, hr3⟩

/-- Running the tail of the pipeline from `bias_detector` to the terminal
marker: five steps. -/
lemma tail_to_finished (dec : AgentState → AgentState)
    (upd : Node → AgentState → AgentStateUpdate) (s : AgentState) :
    ∃ t, (step dec upd)^[5] (.running .bias_detector s) = .finished t := by
  have h0 : (step dec upd)^[0] (Config.running .bias_detector s) =
      .running .bias_detector s := rfl
  have h1 := iterate_step_eq (step dec upd) 0 _ _ _ h0 rfl
  have h2 := iterate_step_eq (step dec upd) 1 _ _ _ h1 rfl
  have h3 := iterate_step_eq (step dec upd) 2 _ _ _ h2 rfl
  have h4 := iterate_step_eq (step dec upd) 3 _ _ _ h3 rfl
  have h5 := iterate_step_eq (step dec upd) 4 _ _ _ h4 rfl
  exact ⟨_, h5⟩

/-- C1 (counterexample): on the state whose `quality_check` key holds the
`None` that the schema `dict | None` permits, the router raises
`AttributeError` rather than returning either outcome, so `"reanalyze"` and
`"continue"` are not the router's only possible results. -/
theorem c1_counterexample :
    should_reanalyze stateQcNone =
      .error "AttributeError: NoneType object has no attribute get" ∧
    should_reanalyze stateQcNone ≠ .ok reanalyzeOutcome ∧
    should_reanalyze stateQcNone ≠ .ok continueOutcome := by
  refine ⟨rfl, ?_, ?_⟩ <;> intro h <;>
    simp [should_reanalyze, stateQcNone, emptyState] at h

/-- C1 (amended): on every state whose `quality_check` key does not hold an
explicit `None`, and whose `reanalysis_count` key does not hold an explicit
`None` when the quality flag is set, the router returns `"reanalyze"` iff
the quality flag is set and the counter (absent read as 0) is strictly
below 2; otherwise it returns `"continue"`, and these two outcomes are its
only results. -/
theorem c1_router_decision (s : AgentState)
    (hq : s.quality_check ≠ some none)
    (hc : needsFlag s = true → s.reanalysis_count ≠ some none) :
    (should_reanalyze s = .ok reanalyzeOutcome ↔
      needsFlag s = true ∧ countVal s < 2) ∧
    (should_reanalyze s = .ok reanalyzeOutcome ∨
      should_reanalyze s = .ok continueOutcome) := by
  unfold should_reanalyze needsFlag countVal at *
  rcases hqc : s.quality_check with _ | (_ | qc)
  · simp only [hqc]
    rcases hrc : s.reanalysis_count with _ | (_ | c) <;>
      simp [reanalyzeOutcome, continueOutcome, Option.getD]
  · exact absurd hqc hq
  · simp only [hqc] at hc ⊢
    rcases hn : qc.needs_reanalysis.getD false with _ | _
    · simp [hn, reanalyzeOutcome, continueOutcome]
    · rcases hrc : s.reanalysis_count with _ | (_ | c)
      · simp only [hrc, hn]
        by_cases hlt : (0 : Int) < 2 <;>
          simp [hlt, reanalyzeOutcome, continueOutcome]
      · exact absurd hrc (hc (by simp [hn]))
      · simp only [hrc, hn]
        by_cases hlt : c < 2 <;>
          simp [hlt, reanalyzeOutcome, continueOutcome]

/-- Witness for `c1_router_decision` at a concrete state. -/
theorem c1_router_decision_witness :
    (should_reanalyze emptyState = .ok reanalyzeOutcome ↔
      needsFlag emptyState = true ∧ countVal emptyState < 2) ∧
    (should_reanalyze emptyState = .ok reanalyzeOutcome ∨
      should_reanalyze emptyState = .ok continueOutcome) :=
  c1_router_decision emptyState (by decide) (by decide)

/-- C4: on every state whose quality check still flags needing analysis
while the counter holds an integer at or above the ceiling 2, the router
returns `"continue"`: it neither raises nor emits the retry outcome. -/
theorem c4_ceiling_proceeds (s : AgentState) (qc : QualityCheck) (c : Int)
    (hq : s.quality_check = some (some qc))
    (hn : qc.needs_reanalysis.getD false = true)
    (hc : s.reanalysis_count = some (some c))
    (hge : 2 ≤ c) :
    should_reanalyze s = .ok continueOutcome := by
  unfold should_reanalyze
  simp only [hq, hc, hn]
  have : ¬ c < 2 := not_lt.mpr hge
  simp [this]

/-- Witness for `c4_ceiling_proceeds` at a concrete state with counter 2. -/
theorem c4_ceiling_proceeds_witness :
    should_reanalyze
      { emptyState with
          quality_check := some (some { needs_reanalysis := some true }),
          reanalysis_count := some (some 2) } = .ok continueOutcome :=
  c4_ceiling_proceeds _ { needs_reanalysis := some true } 2
    rfl rfl rfl (by decide)

/-- C10: the router's result (outcome or fault) depends only on the
`quality_check` and `reanalysis_count` fields: two states agreeing on those
two fields route identically, whatever every other field holds. -/
theorem c10_router_noninterference (s t : AgentState)
    (hq : s.quality_check = t.quality_check)
    (hc : s.reanalysis_count = t.reanalysis_count) :
    should_reanalyze s = should_reanalyze t := by
  unfold should_reanalyze
  rw [hq, hc]

/-- C7: the accumulator-class fields are exactly `candidates`,
`conversation_history` and `errors`, and merging any stage update
concatenates the update's contribution onto the existing sequence —
preserving order and duplicates — so each accumulator's length never
decreases across a merge. -/
theorem c7_accumulator_monotonicity :
    (∀ f : StateField, mergeClass f = .accumulator ↔
      f ∈ [StateField.candidates, StateField.conversation_history,
           StateField.errors]) ∧
    (∀ (s : AgentState) (u : AgentStateUpdate),
      (mergeState s u).candidates = s.candidates ++ u.candidates.getD [] ∧
      (mergeState s u).conversation_history =
        s.conversation_history ++ u.conversation_history.getD [] ∧
      (mergeState s u).errors = s.errors ++ u.errors.getD [] ∧
      s.candidates.length ≤ (mergeState s u).candidates.length ∧
      s.conversation_history.length ≤
        (mergeState s u).conversation_history.length ∧
      s.errors.length ≤ (mergeState s u).errors.length) := by
  refine ⟨by decide, ?_⟩
  intro s u
  refine ⟨rfl, rfl, rfl, ?_, ?_, ?_⟩ <;> simp [mergeState]

/-- C9: every field the retry-reachable span's stages write
(`experience_scores`, `education_scores`, `candidate_scores`,
`ranked_candidates`, `quality_check`) is declared with overwrite merge
class, and merging any update that writes only those fields leaves every
accumulator field exactly as it was — re-running the span cannot append
duplicate accumulator entries. -/
theorem c9_span_fields_overwrite :
    (∀ f ∈ spanWrittenFields, mergeClass f = .overwrite) ∧
    (∀ (s : AgentState) (u : AgentStateUpdate),
      (∀ f : StateField, writesField u f = true → f ∈ spanWrittenFields) →
      (mergeState s u).candidates = s.candidates ∧
      (mergeState s u).conversation_history = s.conversation_history ∧
      (mergeState s u).errors = s.errors) := by
  refine ⟨by decide, ?_⟩
  intro s u h
  have hc : u.candidates = none := by
    cases hx : u.candidates with
    | none => rfl
    | some v =>
      have := h .candidates (by simp [writesField, hx])
      simp [spanWrittenFields] at this
  have hh : u.conversation_history = none := by
    cases hx : u.conversation_history with
    | none => rfl
    | some v =>
      have := h .conversation_history (by simp [writesField, hx])
      simp [spanWrittenFields] at this
  have he : u.errors = none := by
    cases hx : u.errors with
    | none => rfl
    | some v =>
      have := h .errors (by simp [writesField, hx])
      simp [spanWrittenFields] at this
  refine ⟨?_, ?_, ?_⟩ <;> simp [mergeState, hc, hh, he]

/-- Witness for `c9_span_fields_overwrite`: the concrete span-only update
leaves every accumulator of a concrete state unchanged. -/
theorem c9_span_fields_overwrite_witness :
    (∀ f : StateField, writesField spanOnlyUpdate f = true →
      f ∈ spanWrittenFields) ∧
    ((mergeState stateCountNone spanOnlyUpdate).candidates =
        stateCountNone.candidates ∧
      (mergeState stateCountNone spanOnlyUpdate).conversation_history =
        stateCountNone.conversation_history ∧
      (mergeState stateCountNone spanOnlyUpdate).errors =
        stateCountNone.errors) :=
  ⟨by decide, c9_span_fields_overwrite.2 stateCountNone spanOnlyUpdate
    (by decide)⟩

/-- C6: in the built graph, the `"reanalyze"` outcome targets
`experience_analyzer_enhanced`, a stage strictly earlier in the linear
sequence and distinct from the decision stage; the retry edge closes a
cycle, every cycle must use the retry edge (a chain of non-retry edges
never returns to its start), and every registered stage is reachable from
the entry stage `job_analyzer`. -/
theorem c6_graph_structure :
    conditionalTarget reanalyzeOutcome = some .experience_analyzer_enhanced ∧
    Node.experience_analyzer_enhanced ≠ Node.quality_checker ∧
    linearIndex .experience_analyzer_enhanced < linearIndex .quality_checker ∧
    List.Chain EdgeRel .quality_checker
      [.experience_analyzer_enhanced, .education_verifier, .scorer,
       .quality_checker] ∧
    (∀ (a : Node) (l : List Node),
      List.Chain (fun x y => EdgeRel x y ∧ (x, y) ≠ retryEdge) a l →
      l ≠ [] → (a :: l).getLast? ≠ some a) ∧
    (∀ n : Node, Reaches Node.job_analyzer n) := by
  refine ⟨by decide, by decide, by decide,
    List.Chain.cons (by decide) (List.Chain.cons (by decide)
      (List.Chain.cons (by decide) (List.Chain.cons (by decide)
        List.Chain.nil))), ?_, ?_⟩
  · intro a l h hne hlast
    have hmem : (a :: l).getLast (by simp) ∈ l := by
      rw [List.getLast_cons hne]
      exact List.getLast_mem hne
    have hlt := nonretry_chain_forward a l h _ hmem
    rw [List.getLast?_eq_getLast _ (by simp)] at hlast
    have : (a :: l).getLast (by simp) = a := by
      exact Option.some.inj hlast
    rw [this] at hlt
    exact lt_irrefl _ hlt
  · have e : ∀ x y : Node, (x, y) ∈ graphEdges → EdgeRel x y := fun _ _ h => h
    have r0 : Reaches Node.job_analyzer Node.job_analyzer :=
      Relation.ReflTransGen.refl
    have r1 : Reaches Node.job_analyzer Node.resume_parse :=
      r0.tail (by decide)
    have r2 : Reaches Node.job_analyzer Node.tool_coordinator :=
      r1.tail (by decide)
    have r3 : Reaches Node.job_analyzer Node.candidate_enricher :=
      r2.tail (by decide)
    have r4 : Reaches Node.job_analyzer Node.skill_matcher_enhanced :=
      r3.tail (by decide)
    have r5 : Reaches Node.job_analyzer Node.experience_analyzer_enhanced :=
      r4.tail (by decide)
    have r6 : Reaches Node.job_analyzer Node.education_verifier :=
      r5.tail (by decide)
    have r7 : Reaches Node.job_analyzer Node.scorer :=
      r6.tail (by decide)
    have r8 : Reaches Node.job_analyzer Node.quality_checker :=
      r7.tail (by decide)
    have r9 : Reaches Node.job_analyzer Node.bias_detector :=
      r8.tail (by decide)
    have r10 : Reaches Node.job_analyzer Node.salary_estimator :=
      r9.tail (by decide)
    have r11 : Reaches Node.job_analyzer Node.ats_scorer :=
      r10.tail (by decide)
    have r12 : Reaches Node.job_analyzer Node.report_generator :=
      r11.tail (by decide)
    have r13 : Reaches Node.job_analyzer Node.question_generator :=
      r12.tail (by decide)
    intro n
    cases n <;> assumption

/-- Witness for `c6_graph_structure`: its no-cycle-without-retry conjunct
applied to the concrete one-step chain from the entry stage. -/
theorem c6_graph_structure_witness :
    (Node.job_analyzer :: [Node.resume_parse]).getLast? ≠
      some Node.job_analyzer :=
  c6_graph_structure.2.2.2.2.1 Node.job_analyzer [Node.resume_parse]
    (List.Chain.cons ⟨by decide, by decide⟩ List.Chain.nil) (by decide)

/-- C8 (counterexample): on a state whose quality flag is set while the
`reanalysis_count` key holds the `None` the schema permits, the router
raises `TypeError` (Python cannot compare `None < 2`) instead of returning
a result. -/
theorem c8_counterexample :
    should_reanalyze stateCountNone =
      .error "TypeError: comparison of NoneType and int" ∧
    should_reanalyze stateCountNone ≠ .ok reanalyzeOutcome ∧
    should_reanalyze stateCountNone ≠ .ok continueOutcome := by
  refine ⟨rfl, ?_, ?_⟩ <;> intro h <;>
    simp [should_reanalyze, stateCountNone, emptyState] at h

/-- C8 (amended): reading fields whose keys are absent never faults — the
router treats an absent `quality_check` as an empty dict (flag false,
outcome `"continue"`) and an absent `reanalysis_count` as 0 — and on every
state whose present keys hold non-`None` values the router returns a
result without raising.  (A `quality_check` key holding `None`, or a
`reanalysis_count` key holding `None` while the flag is set, raises
instead.) -/
theorem c8_absent_reads_safe (s : AgentState)
    (hq : s.quality_check ≠ some none)
    (hc : s.reanalysis_count ≠ some none) :
    (∃ o, should_reanalyze s = .ok o) ∧
    (s.quality_check = none → should_reanalyze s = .ok continueOutcome) ∧
    (s.reanalysis_count = none →
      should_reanalyze s =
        .ok (if needsFlag s then reanalyzeOutcome else continueOutcome)) := by
  refine ⟨?_, ?_, ?_⟩
  · rcases hqc : s.quality_check with _ | (_ | qc)
    · exact ⟨continueOutcome, by unfold should_reanalyze; simp [hqc]⟩
    · exact absurd hqc hq
    · cases hn : qc.needs_reanalysis.getD false
      · exact ⟨continueOutcome, by unfold should_reanalyze; simp [hqc, hn]⟩
      · rcases hrc : s.reanalysis_count with _ | (_ | c)
        · exact ⟨reanalyzeOutcome,
            by unfold should_reanalyze; simp [hqc, hn, hrc]⟩
        · exact absurd hrc hc
        · by_cases h2 : c < 2
          · exact ⟨reanalyzeOutcome,
              by unfold should_reanalyze; simp [hqc, hn, hrc, h2]⟩
          · exact ⟨continueOutcome,
              by unfold should_reanalyze; simp [hqc, hn, hrc, h2]⟩
  · intro h0
    unfold should_reanalyze
    simp [h0]
  · intro h0
    unfold should_reanalyze needsFlag
    rcases hqc : s.quality_check with _ | (_ | qc)
    · simp [hqc, h0]
    · exact absurd hqc hq
    · cases hn : qc.needs_reanalysis.getD false <;> simp [hqc, h0, hn]

/-- Witness for `c8_absent_reads_safe` at the all-absent empty state. -/
theorem c8_absent_reads_safe_witness :
    (∃ o, should_reanalyze emptyState = .ok o) ∧
    (emptyState.quality_check = none →
      should_reanalyze emptyState = .ok continueOutcome) ∧
    (emptyState.reanalysis_count = none →
      should_reanalyze emptyState =
        .ok (if needsFlag emptyState then reanalyzeOutcome
             else continueOutcome)) :=
  c8_absent_reads_safe emptyState (by decide) (by decide)

/-- C3 (counterexample): the router's return value is only the outcome
string — `should_reanalyze` is declared `-> Literal["reanalyze",
"continue"]` and carries no state update.  On a concrete state with the
flag set and counter 0 it emits retry, and the state the engine hands to
the retry target still has counter 0, not 1: the router did not increment
the counter as part of its own return (the engine here applies no
decision-point update, which is exactly the behaviour of the embedded
sources). -/
theorem c3_counterexample :
    should_reanalyze retryReadyState = .ok reanalyzeOutcome ∧
    step id (fun _ _ => emptyUpdate)
        (.running .quality_checker retryReadyState) =
      .running .experience_analyzer_enhanced retryReadyState ∧
    retryReadyState.reanalysis_count = some (some 0) := by
  refine ⟨rfl, by decide, rfl⟩

/-- C3 (amended): the router emits only an outcome and changes no state;
the counter increment on retry is performed by stage logic outside the
embedded sources (modelled from the spec as `incrementOnRetry`).  With
that increment in place and no stage update writing `reanalysis_count`,
the counter as read by the router (absent key as 0) never decreases
across any engine step. -/
theorem c3_counter_monotone (upd : Node → AgentState → AgentStateUpdate)
    (hctrl : ∀ n s, (upd n s).reanalysis_count = none) (c : Config) :
    countVal (configState c) ≤
      countVal (configState (step incrementOnRetry upd c)) := by
  cases c with
  | finished s => simp [step, configState]
  | failed e s => simp [step, configState]
  | running n s =>
    have hpre : countVal (mergeState s (upd n s)) = countVal s := by
      unfold countVal
      rw [merge_rc _ _ (hctrl n s)]
    cases n
    case quality_checker =>
      rcases hr : should_reanalyze
          (mergeState s (upd .quality_checker s)) with e | o
      · simp [step, hr, configState, hpre]
      · by_cases ho : o = reanalyzeOutcome
        · have hinc : countVal (configState (step incrementOnRetry upd
              (.running .quality_checker s))) =
              countVal (mergeState s (upd .quality_checker s)) + 1 := by
            simp [step, hr, ho, configState, incrementOnRetry, countVal]
          rw [hinc, hpre]
          simp [configState]
        · by_cases hco : o = continueOutcome
          · simp [step, hr, ho, hco, configState, hpre,
              reanalyzeOutcome, continueOutcome]
          · simp [step, hr, ho, hco, configState, hpre]
    all_goals simp [step, configState, hpre]

/-- Witness for `c3_counter_monotone`: one decision step from the concrete
retry-ready state under empty stage updates. -/
theorem c3_counter_monotone_witness :
    countVal (configState (Config.running .quality_checker
        retryReadyState)) ≤
      countVal (configState (step incrementOnRetry (fun _ _ => emptyUpdate)
        (.running .quality_checker retryReadyState))) :=
  c3_counter_monotone (fun _ _ => emptyUpdate) (fun _ _ => rfl) _

/-- C5 (counterexample): nothing inside the router enforces forward
progress when the counter is never incremented.  Concretely: with no
decision-point update (the behaviour of the embedded sources alone), every
stage returning an empty update except the quality checker, which always
sets the flag, the run enters the retry cycle and never reaches the
terminal marker — the engine loops forever. -/
theorem c5_counterexample :
    ¬ ∃ m, isFinished ((step id alwaysNeedsUpdate)^[m]
      (.running .job_analyzer emptyState)) = true := by
  rintro ⟨m, hm⟩
  by_cases h9 : m < 9
  · interval_cases m <;> exact absurd hm (by decide)
  · push_neg at h9
    have hcyc : (step id alwaysNeedsUpdate)^[4]
        ((step id alwaysNeedsUpdate)^[9]
          (.running .job_analyzer emptyState)) =
        (step id alwaysNeedsUpdate)^[9]
          (.running .job_analyzer emptyState) := by
      decide
    have hper := iterate_cycle (step id alwaysNeedsUpdate)
      ((step id alwaysNeedsUpdate)^[9] (.running .job_analyzer emptyState))
      4 (by norm_num) hcyc (m - 9)
    have hm' : (step id alwaysNeedsUpdate)^[m]
        (Config.running .job_analyzer emptyState) =
        (step id alwaysNeedsUpdate)^[(m - 9) % 4]
          ((step id alwaysNeedsUpdate)^[9]
            (.running .job_analyzer emptyState)) := by
      rw [show m = (m - 9) + 9 by omega, Function.iterate_add_apply]
      exact hper
    rw [hm'] at hm
    have hr4 : (m - 9) % 4 < 4 := Nat.mod_lt _ (by norm_num)
    set r := (m - 9) % 4 with hrdef
    interval_cases r <;> exact absurd hm (by decide)

/-- C5 (amended): forward progress is not defensively enforced inside the
router; it holds once the spec's decision-point increment is applied on
each retry.  With `incrementOnRetry` in place, no stage update writing the
counter, the quality checker always writing some dict, and a fresh initial
counter, every run reaches the terminal marker by step 22, whatever the
quality flags say. -/
theorem c5_progress_with_increment
    (upd : Node → AgentState → AgentStateUpdate) (s0 : AgentState)
    (hctrl : ∀ n s, (upd n s).reanalysis_count = none)
    (hqc : ∀ s, ∃ d : QualityCheck,
      (upd .quality_checker s).quality_check = some (some d))
    (hs0 : s0.reanalysis_count = none) :
    isFinished ((step incrementOnRetry upd)^[22]
      (.running .job_analyzer s0)) = true := by
  obtain ⟨t8, h8, hr8⟩ := prefix_to_qc incrementOnRetry upd s0 hctrl hs0
  obtain ⟨d, hd⟩ := hqc t8
  have hmq : (mergeState t8 (upd .quality_checker t8)).quality_check =
      some (some d) := merge_qc _ _ _ hd
  have hmr : (mergeState t8 (upd .quality_checker t8)).reanalysis_count =
      none := by rw [merge_rc _ _ (hctrl _ _)]; exact hr8
  cases hn : d.needs_reanalysis.getD false with
  | false =>
    have hroute := router_continue_of_flag_false _ _ hmq hn
    have h9 : (step incrementOnRetry upd)^[9]
        (Config.running .job_analyzer s0) = .running .bias_detector
          (mergeState t8 (upd .quality_checker t8)) :=
      iterate_step_eq _ 8 _ _ _ h8 (step_qc_continue _ _ _ hroute)
    obtain ⟨tf, hf⟩ := tail_to_finished incrementOnRetry upd
      (mergeState t8 (upd .quality_checker t8))
    have h14 : (step incrementOnRetry upd)^[14]
        (Config.running .job_analyzer s0) = .finished tf := by
      have hadd : (step incrementOnRetry upd)^[14]
          (Config.running .job_analyzer s0) =
          (step incrementOnRetry upd)^[5]
            ((step incrementOnRetry upd)^[9]
              (.running .job_analyzer s0)) :=
        Function.iterate_add_apply _ 5 9 _
      rw [hadd, h9, hf]
    have h22 : (step incrementOnRetry upd)^[22]
        (Config.running .job_analyzer s0) = .finished tf := by
      have hadd : (step incrementOnRetry upd)^[22]
          (Config.running .job_analyzer s0) =
          (step incrementOnRetry upd)^[8]
            ((step incrementOnRetry upd)^[14]
              (.running .job_analyzer s0)) :=
        Function.iterate_add_apply _ 8 14 _
      rw [hadd, h14, iterate_finished]
    rw [h22]; rfl
  | true =>
    have hsome : d.needs_reanalysis = some true := by
      rcases hx : d.needs_reanalysis with _ | b
      · rw [hx] at hn; simp at hn
      · rw [hx] at hn; simp at hn; rw [hn]
    have hroute := router_retry_of _ _ hmq hsome (Or.inl hmr)
    have h9 : (step incrementOnRetry upd)^[9]
        (Config.running .job_analyzer s0) =
        .running .experience_analyzer_enhanced (incrementOnRetry
          (mergeState t8 (upd .quality_checker t8))) :=
      iterate_step_eq _ 8 _ _ _ h8 (step_qc_retry _ _ _ hroute)
    have hr9 : (incrementOnRetry
        (mergeState t8 (upd .quality_checker t8))).reanalysis_count =
        some (some 1) := by
      simp [incrementOnRetry, countVal_of_none _ hmr]
    obtain ⟨t12, h12s, hr12⟩ := span_to_qc incrementOnRetry upd _ _
      hctrl hr9
    have h12 : (step incrementOnRetry upd)^[12]
        (Config.running .job_analyzer s0) = .running .quality_checker t12 := by
      have hadd : (step incrementOnRetry upd)^[12]
          (Config.running .job_analyzer s0) =
          (step incrementOnRetry upd)^[3]
            ((step incrementOnRetry upd)^[9]
              (.running .job_analyzer s0)) :=
        Function.iterate_add_apply _ 3 9 _
      rw [hadd, h9]; exact h12s
    obtain ⟨d2, hd2⟩ := hqc t12
    have hmq2 : (mergeState t12 (upd .quality_checker t12)).quality_check =
        some (some d2) := merge_qc _ _ _ hd2
    have hmr2 : (mergeState t12
        (upd .quality_checker t12)).reanalysis_count = some (some 1) := by
      rw [merge_rc _ _ (hctrl _ _)]; exact hr12
    cases hn2 : d2.needs_reanalysis.getD false with
    | false =>
      have hroute2 := router_continue_of_flag_false _ _ hmq2 hn2
      have h13 : (step incrementOnRetry upd)^[13]
          (Config.running .job_analyzer s0) = .running .bias_detector
            (mergeState t12 (upd .quality_checker t12)) :=
        iterate_step_eq _ 12 _ _ _ h12 (step_qc_continue _ _ _ hroute2)
      obtain ⟨tf, hf⟩ := tail_to_finished incrementOnRetry upd
        (mergeState t12 (upd .quality_checker t12))
      have h18 : (step incrementOnRetry upd)^[18]
          (Config.running .job_analyzer s0) = .finished tf := by
        have hadd : (step incrementOnRetry upd)^[18]
            (Config.running .job_analyzer s0) =
            (step incrementOnRetry upd)^[5]
              ((step incrementOnRetry upd)^[13]
                (.running .job_analyzer s0)) :=
          Function.iterate_add_apply _ 5 13 _
        rw [hadd, h13, hf]
      have h22 : (step incrementOnRetry upd)^[22]
          (Config.running .job_analyzer s0) = .finished tf := by
        have hadd : (step incrementOnRetry upd)^[22]
            (Config.running .job_analyzer s0) =
            (step incrementOnRetry upd)^[4]
              ((step incrementOnRetry upd)^[18]
                (.running .job_analyzer s0)) :=
          Function.iterate_add_apply _ 4 18 _
        rw [hadd, h18, iterate_finished]
      rw [h22]; rfl
    | true =>
      have hsome2 : d2.needs_reanalysis = some true := by
        rcases hx : d2.needs_reanalysis with _ | b
        · rw [hx] at hn2; simp at hn2
        · rw [hx] at hn2; simp at hn2; rw [hn2]
      have hroute2 := router_retry_of _ _ hmq2 hsome2
        (Or.inr ⟨1, hmr2, by norm_num⟩)
      have h13 : (step incrementOnRetry upd)^[13]
          (Config.running .job_analyzer s0) =
          .running .experience_analyzer_enhanced (incrementOnRetry
            (mergeState t12 (upd .quality_checker t12))) :=
        iterate_step_eq _ 12 _ _ _ h12 (step_qc_retry _ _ _ hroute2)
      have hr13 : (incrementOnRetry
          (mergeState t12 (upd .quality_checker t12))).reanalysis_count =
          some (some 2) := by
        simp [incrementOnRetry, countVal_of_int _ _ hmr2]
      obtain ⟨t16, h16s, hr16⟩ := span_to_qc incrementOnRetry upd _ _
        hctrl hr13
      have h16 : (step incrementOnRetry upd)^[16]
          (Config.running .job_analyzer s0) =
          .running .quality_checker t16 := by
        have hadd : (step incrementOnRetry upd)^[16]
            (Config.running .job_analyzer s0) =
            (step incrementOnRetry upd)^[3]
              ((step incrementOnRetry upd)^[13]
                (.running .job_analyzer s0)) :=
          Function.iterate_add_apply _ 3 13 _
        rw [hadd, h13]; exact h16s
      obtain ⟨d3, hd3⟩ := hqc t16
      have hmq3 : (mergeState t16
          (upd .quality_checker t16)).quality_check = some (some d3) :=
        merge_qc _ _ _ hd3
      have hmr3 : (mergeState t16
          (upd .quality_checker t16)).reanalysis_count = some (some 2) := by
        rw [merge_rc _ _ (hctrl _ _)]; exact hr16
      have hroute3 := router_continue_of_ceiling _ _ 2 hmq3 hmr3
        (by norm_num)
      have h17 : (step incrementOnRetry upd)^[17]
          (Config.running .job_analyzer s0) = .running .bias_detector
            (mergeState t16 (upd .quality_checker t16)) :=
        iterate_step_eq _ 16 _ _ _ h16 (step_qc_continue _ _ _ hroute3)
      obtain ⟨tf, hf⟩ := tail_to_finished incrementOnRetry upd
        (mergeState t16 (upd .quality_checker t16))
      have h22 : (step incrementOnRetry upd)^[22]
          (Config.running .job_analyzer s0) = .finished tf := by
        have hadd : (step incrementOnRetry upd)^[22]
            (Config.running .job_analyzer s0) =
            (step incrementOnRetry upd)^[5]
              ((step incrementOnRetry upd)^[17]
                (.running .job_analyzer s0)) :=
          Function.iterate_add_apply _ 5 17 _
        rw [hadd, h17, hf]
      rw [h22]; rfl

/-- Witness for `c5_progress_with_increment` under the concrete
always-needs update family from the empty initial state. -/
theorem c5_progress_with_increment_witness :
    isFinished ((step incrementOnRetry alwaysNeedsUpdate)^[22]
      (.running .job_analyzer emptyState)) = true :=
  c5_progress_with_increment alwaysNeedsUpdate emptyState
    (fun n s => by cases n <;> rfl)
    (fun _ => ⟨{ needs_reanalysis := some true }, rfl⟩) rfl

/-- C2: when the quality checker always reports that reanalysis is needed
(and, per the spec's decision-point contract, the counter is incremented
on each retry while no stage writes it), a full run still terminates: it
reaches the terminal marker at step 22 and not before, the retry edge is
taken exactly 2 times, and the retry-reachable span (its target
`experience_analyzer_enhanced` and the decision stage `quality_checker`)
is visited exactly 3 times — the run never loops a third time. -/
theorem c2_retry_bound (upd : Node → AgentState → AgentStateUpdate)
    (s0 : AgentState)
    (hctrl : ∀ n s, (upd n s).reanalysis_count = none)
    (hqc : ∀ s, ∃ d : QualityCheck,
      (upd .quality_checker s).quality_check = some (some d) ∧
      d.needs_reanalysis = some true)
    (hs0 : s0.reanalysis_count = none) :
    isFinished ((step incrementOnRetry upd)^[22]
      (.running .job_analyzer s0)) = true ∧
    (∀ k < 22, isFinished ((step incrementOnRetry upd)^[k]
      (.running .job_analyzer s0)) = false) ∧
    (visitedNodes incrementOnRetry upd
      (.running .job_analyzer s0) 22).count
      (some .experience_analyzer_enhanced) = 3 ∧
    (visitedNodes incrementOnRetry upd
      (.running .job_analyzer s0) 22).count
      (some .quality_checker) = 3 ∧
    retryTransitions (visitedNodes incrementOnRetry upd
      (.running .job_analyzer s0) 22) = 2 := by
  have h0 : (step incrementOnRetry upd)^[0]
      (Config.running .job_analyzer s0) = .running .job_analyzer s0 := rfl
  obtain ⟨s1, h1, hr1⟩ : ∃ t, (step incrementOnRetry upd)^[1]
      (Config.running .job_analyzer s0) = .running .resume_parse t ∧
      t.reanalysis_count = none := lin_advance h0 hs0 (hctrl _ _) rfl
  obtain ⟨s2, h2, hr2⟩ : ∃ t, (step incrementOnRetry upd)^[2]
      (Config.running .job_analyzer s0) = .running .tool_coordinator t ∧
      t.reanalysis_count = none := lin_advance h1 hr1 (hctrl _ _) rfl
  obtain ⟨s3, h3, hr3⟩ : ∃ t, (step incrementOnRetry upd)^[3]
      (Config.running .job_analyzer s0) = .running .candidate_enricher t ∧
      t.reanalysis_count = none := lin_advance h2 hr2 (hctrl _ _) rfl
  obtain ⟨s4, h4, hr4⟩ : ∃ t, (step incrementOnRetry upd)^[4]
      (Config.running .job_analyzer s0) =
        .running .skill_matcher_enhanced t ∧
      t.reanalysis_count = none := lin_advance h3 hr3 (hctrl _ _) rfl
  obtain ⟨s5, h5, hr5⟩ : ∃ t, (step incrementOnRetry upd)^[5]
      (Config.running .job_analyzer s0) =
        .running .experience_analyzer_enhanced t ∧
      t.reanalysis_count = none := lin_advance h4 hr4 (hctrl _ _) rfl
  obtain ⟨s6, h6, hr6⟩ : ∃ t, (step incrementOnRetry upd)^[6]
      (Config.running .job_analyzer s0) = .running .education_verifier t ∧
      t.reanalysis_count = none := lin_advance h5 hr5 (hctrl _ _) rfl
  obtain ⟨s7, h7, hr7⟩ : ∃ t, (step incrementOnRetry upd)^[7]
      (Config.running .job_analyzer s0) = .running .scorer t ∧
      t.reanalysis_count = none := lin_advance h6 hr6 (hctrl _ _) rfl
  obtain ⟨s8, h8, hr8⟩ : ∃ t, (step incrementOnRetry upd)^[8]
      (Config.running .job_analyzer s0) = .running .quality_checker t ∧
      t.reanalysis_count = none := lin_advance h7 hr7 (hctrl _ _) rfl
  -- first visit to the decision stage: counter absent, flag set → retry
  obtain ⟨d1, hd1, hdn1⟩ := hqc s8
  have hmq1 : (mergeState s8 (upd .quality_checker s8)).quality_check =
      some (some d1) := merge_qc _ _ _ hd1
  have hmr1 : (mergeState s8 (upd .quality_checker s8)).reanalysis_count =
      none := by rw [merge_rc _ _ (hctrl _ _)]; exact hr8
  have hroute1 := router_retry_of _ _ hmq1 hdn1 (Or.inl hmr1)
  obtain ⟨s9, h9, hr9⟩ : ∃ t, (step incrementOnRetry upd)^[9]
      (Config.running .job_analyzer s0) =
        .running .experience_analyzer_enhanced t ∧
      t.reanalysis_count = some (some 1) :=
    ⟨_, iterate_step_eq _ 8 _ _ _ h8 (step_qc_retry _ _ _ hroute1),
      by simp [incrementOnRetry, countVal_of_none _ hmr1]⟩
  obtain ⟨s10, h10, hr10⟩ : ∃ t, (step incrementOnRetry upd)^[10]
      (Config.running .job_analyzer s0) = .running .education_verifier t ∧
      t.reanalysis_count = some (some 1) :=
    lin_advance h9 hr9 (hctrl _ _) rfl
  obtain ⟨s11, h11, hr11⟩ : ∃ t, (step incrementOnRetry upd)^[11]
      (Config.running .job_analyzer s0) = .running .scorer t ∧
      t.reanalysis_count = some (some 1) :=
    lin_advance h10 hr10 (hctrl _ _) rfl
  obtain ⟨s12, h12, hr12⟩ : ∃ t, (step incrementOnRetry upd)^[12]
      (Config.running .job_analyzer s0) = .running .quality_checker t ∧
      t.reanalysis_count = some (some 1) :=
    lin_advance h11 hr11 (hctrl _ _) rfl
  -- second visit: counter 1 < 2, flag set → retry
  obtain ⟨d2, hd2, hdn2⟩ := hqc s12
  have hmq2 : (mergeState s12 (upd .quality_checker s12)).quality_check =
      some (some d2) := merge_qc _ _ _ hd2
  have hmr2 : (mergeState s12 (upd .quality_checker s12)).reanalysis_count =
      some (some 1) := by rw [merge_rc _ _ (hctrl _ _)]; exact hr12
  have hroute2 := router_retry_of _ _ hmq2 hdn2
    (Or.inr ⟨1, hmr2, by norm_num⟩)
  obtain ⟨s13, h13, hr13⟩ : ∃ t, (step incrementOnRetry upd)^[13]
      (Config.running .job_analyzer s0) =
        .running .experience_analyzer_enhanced t ∧
      t.reanalysis_count = some (some 2) :=
    ⟨_, iterate_step_eq _ 12 _ _ _ h12 (step_qc_retry _ _ _ hroute2),
      by simp [incrementOnRetry, countVal_of_int _ _ hmr2]⟩
  obtain ⟨s14, h14, hr14⟩ : ∃ t, (step incrementOnRetry upd)^[14]
      (Config.running .job_analyzer s0) = .running .education_verifier t ∧
      t.reanalysis_count = some (some 2) :=
    lin_advance h13 hr13 (hctrl _ _) rfl
  obtain ⟨s15, h15, hr15⟩ : ∃ t, (step incrementOnRetry upd)^[15]
      (Config.running .job_analyzer s0) = .running .scorer t ∧
      t.reanalysis_count = some (some 2) :=
    lin_advance h14 hr14 (hctrl _ _) rfl
  obtain ⟨s16, h16, hr16⟩ : ∃ t, (step incrementOnRetry upd)^[16]
      (Config.running .job_analyzer s0) = .running .quality_checker t ∧
      t.reanalysis_count = some (some 2) :=
    lin_advance h15 hr15 (hctrl _ _) rfl
  -- third visit: counter at the ceiling → proceed, whatever the flag
  obtain ⟨d3, hd3, hdn3⟩ := hqc s16
  have hmq3 : (mergeState s16 (upd .quality_checker s16)).quality_check =
      some (some d3) := merge_qc _ _ _ hd3
  have hmr3 : (mergeState s16 (upd .quality_checker s16)).reanalysis_count =
      some (some 2) := by rw [merge_rc _ _ (hctrl _ _)]; exact hr16
  have hroute3 := router_continue_of_ceiling _ _ 2 hmq3 hmr3 (by norm_num)
  obtain ⟨s17, h17, hr17⟩ : ∃ t, (step incrementOnRetry upd)^[17]
      (Config.running .job_analyzer s0) = .running .bias_detector t ∧
      t.reanalysis_count = some (some 2) :=
    ⟨_, iterate_step_eq _ 16 _ _ _ h16 (step_qc_continue _ _ _ hroute3),
      by rw [merge_rc _ _ (hctrl _ _)]; exact hr16⟩
  obtain ⟨s18, h18, hr18⟩ : ∃ t, (step incrementOnRetry upd)^[18]
      (Config.running .job_analyzer s0) = .running .salary_estimator t ∧
      t.reanalysis_count = some (some 2) :=
    lin_advance h17 hr17 (hctrl _ _) rfl
  obtain ⟨s19, h19, hr19⟩ : ∃ t, (step incrementOnRetry upd)^[19]
      (Config.running .job_analyzer s0) = .running .ats_scorer t ∧
      t.reanalysis_count = some (some 2) :=
    lin_advance h18 hr18 (hctrl _ _) rfl
  obtain ⟨s20, h20, hr20⟩ : ∃ t, (step incrementOnRetry upd)^[20]
      (Config.running .job_analyzer s0) = .running .report_generator t ∧
      t.reanalysis_count = some (some 2) :=
    lin_advance h19 hr19 (hctrl _ _) rfl
  obtain ⟨s21, h21, hr21⟩ : ∃ t, (step incrementOnRetry upd)^[21]
      (Config.running .job_analyzer s0) = .running .question_generator t ∧
      t.reanalysis_count = some (some 2) :=
    lin_advance h20 hr20 (hctrl _ _) rfl
  have h22 : (step incrementOnRetry upd)^[22]
      (Config.running .job_analyzer s0) =
      .finished (mergeState s21 (upd .question_generator s21)) :=
    iterate_step_eq _ 21 _ _ _ h21 rfl
  have hvis : visitedNodes incrementOnRetry upd
      (Config.running .job_analyzer s0) 22 =
      [some .job_analyzer, some .resume_parse, some .tool_coordinator,
       some .candidate_enricher, some .skill_matcher_enhanced,
       some .experience_analyzer_enhanced, some .education_verifier,
       some .scorer, some .quality_checker,
       some .experience_analyzer_enhanced, some .education_verifier,
       some .scorer, some .quality_checker,
       some .experience_analyzer_enhanced, some .education_verifier,
       some .scorer, some .quality_checker,
       some .bias_detector, some .salary_estimator, some .ats_scorer,
       some .report_generator, some .question_generator] := by
    unfold visitedNodes
    rw [show List.range 22 =
      [0, 1, 2, 3, 4, 5, 6, 7, 8, 9, 10, 11, 12, 13, 14, 15, 16, 17, 18,
       19, 20, 21] from rfl]
    simp only [List.map_cons, List.map_nil]
    rw [h0, h1, h2, h3, h4, h5, h6, h7, h8, h9, h10, h11, h12, h13, h14,
      h15, h16, h17, h18, h19, h20, h21]
    simp [configNode]
  refine ⟨by rw [h22]; rfl, ?_, ?_, ?_, ?_⟩
  · intro k hk
    interval_cases k <;>
      simp only [h0, h1, h2, h3, h4, h5, h6, h7, h8, h9, h10, h11, h12,
        h13, h14, h15, h16, h17, h18, h19, h20, h21, isFinished]
  · rw [hvis]; decide
  · rw [hvis]; decide
  · rw [hvis]; decide

/-- Witness for `c2_retry_bound` under the concrete always-needs update
family from the empty initial state. -/
theorem c2_retry_bound_witness :
    isFinished ((step incrementOnRetry alwaysNeedsUpdate)^[22]
      (.running .job_analyzer emptyState)) = true ∧
    (∀ k < 22, isFinished ((step incrementOnRetry alwaysNeedsUpdate)^[k]
      (.running .job_analyzer emptyState)) = false) ∧
    (visitedNodes incrementOnRetry alwaysNeedsUpdate
      (.running .job_analyzer emptyState) 22).count
      (some .experience_analyzer_enhanced) = 3 ∧
    (visitedNodes incrementOnRetry alwaysNeedsUpdate
      (.running .job_analyzer emptyState) 22).count
      (some .quality_checker) = 3 ∧
    retryTransitions (visitedNodes incrementOnRetry alwaysNeedsUpdate
      (.running .job_analyzer emptyState) 22) = 2 :=
  c2_retry_bound alwaysNeedsUpdate emptyState
    (fun n s => by cases n <;> rfl)
    (fun _ => ⟨{ needs_reanalysis := some true }, rfl, rfl⟩) rfl

/-- Witness for `c10_router_noninterference`: two states that differ in the
job description, resumes, report and errors but agree on the two routed
fields. -/
theorem c10_router_noninterference_witness :
    should_reanalyze
      { emptyState with
          job_description := some "Senior Go engineer",
          resumes := some ["doc_A", "doc_B"],
          quality_check := some (some { needs_reanalysis := some true }),
          reanalysis_count := some (some 1) } =
    should_reanalyze
      { emptyState with
          report := some (some "final report"),
          errors := ["stage fault"],
          quality_check := some (some { needs_reanalysis := some true }),
          reanalysis_count := some (some 1) } :=
  c10_router_noninterference _ _ rfl rfl

end Screening
